import Mathlib

/-
Shallow embedding of src/TimerOne/TimerOne.cpp (TimerOne driver for the
16-bit Timer1 of an ATmega168/328).

Conventions of the embedding:
- C `long` is 32-bit signed on AVR; arithmetic on it is modelled on `Int`
  with an explicit wrap `wrap32` where overflow matters.
- C `unsigned long` is 32-bit; modelled on `Nat` with explicit `% 4294967296`.
- C `int` is 16-bit signed on AVR, `unsigned int` 16-bit; 16-bit registers
  (TCNT1, ICR1, OCR1A, OCR1B) are modelled as `Nat` values, truncated with
  `% 65536` on writes.
- Bit constants from the AVR headers: _BV(CS10)=1, _BV(CS11)=2, _BV(CS12)=4,
  _BV(WGM13)=16, _BV(COM1A1)=128, _BV(COM1B1)=32, _BV(PORTB1)=2,
  _BV(PORTB2)=4, _BV(TOIE1)=1, _BV(PSRSYNC)=1.
- The hardware counter TCNT1 advances asynchronously; functions that sample it
  (`read`) take the sampled values as explicit arguments.
-/

namespace TimerOne

/-- Modelled from the spec: the `RESOLUTION` constant lives in the missing
header TimerOne.h; the spec fixes it as "a fixed RESOLUTION constant,
2^16 − 1 for a 16-bit counter". -/
def RESOLUTION : Int := 65535

/-- Wrap-around of 32-bit signed (`long`) arithmetic. -/
def wrap32 (x : Int) : Int :=
  (x + 2147483648) % 4294967296 - 2147483648

/-- Line 65: `long cycles = (F_CPU / 2000000) * microseconds;`
computed in 32-bit `long` arithmetic. `fcpu` is the compile-time F_CPU
clock frequency (a build parameter, external to the source file). -/
def machineCycles (fcpu : Nat) (microseconds : Int) : Int :=
  wrap32 (((fcpu / 2000000 : Nat) : Int) * microseconds)

/-- The exact (unbounded) cycle count `(clockFrequency / 2000000) * period`,
with no 32-bit wrap; used to state what the spec's formulas mean in exact
arithmetic. -/
def exactCycles (fcpu : Nat) (microseconds : Int) : Int :=
  ((fcpu / 2000000 : Nat) : Int) * microseconds

/-- Lines 67-91 of setPeriod: the prescaler-selection if-chain. Returns
`(clockSelectBits, cycles-after-shifts)`. The source repeatedly shifts the
`cycles` variable (`cycles >>= 3`, `>>= 3`, `>>= 2`, `>>= 2`); every shift is
applied only on a branch where the running value is `≥ RESOLUTION > 0`, where
an arithmetic right shift equals division, and the compounded divisors are
8, 64, 256, 1024. -/
def selectClock (cycles : Int) : Nat × Int :=
  if cycles < RESOLUTION then
    (1, cycles)
  else if cycles / 8 < RESOLUTION then
    (2, cycles / 8)
  else if cycles / 64 < RESOLUTION then
    (3, cycles / 64)
  else if cycles / 256 < RESOLUTION then
    (4, cycles / 256)
  else if cycles / 1024 < RESOLUTION then
    (5, cycles / 1024)
  else
    (5, RESOLUTION - 1)

/-- The `(clockSelectBits, pwmPeriod)` pair computed by
`TimerOne::setPeriod(microseconds)` (lines 59-104). -/
def setPeriodSel (fcpu : Nat) (microseconds : Int) : Nat × Int :=
  selectClock (machineCycles fcpu microseconds)

/-- The prescale divider encoded by a clockSelectBits value
(CS-bit patterns 1,2,3,4,5 for dividers 1,8,64,256,1024). -/
def dividerOf (bits : Nat) : Nat :=
  match bits with
  | 1 => 1
  | 2 => 8
  | 3 => 64
  | 4 => 256
  | 5 => 1024
  | _ => 0

/-- Driver and register state touched by the source: the 8-bit control
registers, the 16-bit timer registers, and the member variables of the
TimerOne object (`pwmPeriod`, `clockSelectBits`, `isrCallback`; the callback
is modelled as an opaque numeric identifier).  `oldSREG` and the interrupt
mask are modelled separately by the access traces below. -/
structure State where
  tccr1a : Nat
  tccr1b : Nat
  timsk1 : Nat
  gtccr : Nat
  ddrb : Nat
  tcnt1 : Nat
  icr1 : Nat
  ocr1a : Nat
  ocr1b : Nat
  pwmPeriod : Int
  clockSelectBits : Nat
  isrCallback : Nat
deriving DecidableEq, Repr

/-- Truncation of a `long` value stored into a 16-bit register. -/
def u16 (x : Int) : Nat := (x % 65536).toNat

/-- Conversion of a signed value to `unsigned long` (32-bit). -/
def u32 (x : Int) : Nat := (x % 4294967296).toNat

/-- `TimerOne::setPeriod` (lines 59-104): runs the prescaler selection, writes
`ICR1 = pwmPeriod = cycles`, clears the CS bits of TCCR1B and ORs in the new
clockSelectBits (which starts the clock). -/
def setPeriod (fcpu : Nat) (microseconds : Int) (s : State) : State :=
  let r := setPeriodSel fcpu microseconds
  { s with clockSelectBits := r.1
         , pwmPeriod := r.2
         , icr1 := u16 r.2
         , tccr1b := (s.tccr1b &&& 248) ||| r.1 }

/-- `TimerOne::initialize` (lines 49-56): `TCCR1A = 0`, `TCCR1B = _BV(WGM13)`
(= 16, mode 8: phase and frequency correct PWM, clock stopped), then
`setPeriod(microseconds)`.  (Named `initDriver` here; the source name is
the C++ member `TimerOne::initialize`.) -/
def initDriver (fcpu : Nat) (microseconds : Int) (s : State) : State :=
  setPeriod fcpu microseconds { s with tccr1a := 0, tccr1b := 16 }

/-- `TimerOne::setPwmDuty` (lines 106-122): `unsigned long dutyCycle =
pwmPeriod; dutyCycle *= duty; dutyCycle >>= 10;` then writes OCR1A for pins
1/9, OCR1B for pins 2/10, nothing otherwise. -/
def setPwmDuty (pin duty : Int) (s : State) : State :=
  let dutyCycle : Nat := ((u32 s.pwmPeriod * u32 duty) % 4294967296) >>> 10
  if pin = 1 ∨ pin = 9 then
    { s with ocr1a := dutyCycle % 65536 }
  else if pin = 2 ∨ pin = 10 then
    { s with ocr1b := dutyCycle % 65536 }
  else
    s

/-- `TimerOne::resume` (lines 190-193): `TCCR1B |= clockSelectBits`. -/
def resume (s : State) : State :=
  { s with tccr1b := s.tccr1b ||| s.clockSelectBits }

/-- `TimerOne::pwm` (lines 126-152): optional `setPeriod`, then the
channel's DDRB direction bit and TCCR1A compare-output bit for valid pins,
then `setPwmDuty(pin, duty)` and `resume()` (always). -/
def pwm (fcpu : Nat) (pin duty microseconds : Int) (s : State) : State :=
  let s1 := if 0 < microseconds then setPeriod fcpu microseconds s else s
  let s2 :=
    if pin = 1 ∨ pin = 9 then
      { s1 with ddrb := s1.ddrb ||| 2, tccr1a := s1.tccr1a ||| 128 }
    else if pin = 2 ∨ pin = 10 then
      { s1 with ddrb := s1.ddrb ||| 4, tccr1a := s1.tccr1a ||| 32 }
    else
      s1
  resume (setPwmDuty pin duty s2)

/-- `TimerOne::disablePwm` (lines 154-163): clears the channel's
compare-output bit (`~_BV(COM1A1)` = 127, `~_BV(COM1B1)` = 223 on 8 bits). -/
def disablePwm (pin : Int) (s : State) : State :=
  if pin = 1 ∨ pin = 9 then
    { s with tccr1a := s.tccr1a &&& 127 }
  else if pin = 2 ∨ pin = 10 then
    { s with tccr1a := s.tccr1a &&& 223 }
  else
    s

/-- `TimerOne::attachInterrupt` (lines 165-179): optional `setPeriod`,
store the callback, `TIMSK1 = _BV(TOIE1)` (assignment of the whole register,
value 1), then `resume()`. -/
def attachInterrupt (fcpu : Nat) (cb : Nat) (microseconds : Int) (s : State) : State :=
  let s1 := if 0 < microseconds then setPeriod fcpu microseconds s else s
  resume { s1 with isrCallback := cb, timsk1 := 1 }

/-- `TimerOne::detachInterrupt` (lines 181-188): `TIMSK1 &= ~_BV(TOIE1)`. -/
def detachInterrupt (s : State) : State :=
  { s with timsk1 := s.timsk1 &&& 254 }

/-- `TimerOne::start` (lines 201-227): clear TOIE1, set GTCCR PSRSYNC,
zero TCNT1 (inside a critical section), `resume()`; the trailing busy-wait
only reads TCNT1 and changes no driver state. -/
def start (s : State) : State :=
  resume { s with timsk1 := s.timsk1 &&& 254
                , gtccr := s.gtccr ||| 1
                , tcnt1 := 0 }

/-- `TimerOne::restart` (lines 195-198): calls `start()`. -/
def restart (s : State) : State := start s

/-- `TimerOne::stop` (lines 229-233): clears the three CS bits of TCCR1B. -/
def stop (s : State) : State :=
  { s with tccr1b := s.tccr1b &&& 248 }

/-- The `switch (clockSelectBits)` of `TimerOne::read` (lines 249-270):
the shift amount for each clockSelectBits encoding; `none` when no case
matches (the C `scale` variable would keep its initial 0). -/
def scaleSwitch (bits : Nat) : Option Nat :=
  match bits with
  | 1 => some 0
  | 2 => some 3
  | 3 => some 6
  | 4 => some 8
  | 5 => some 10
  | _ => none

/-- The scale actually used by `read`: `char scale = 0` overwritten by a
matching switch case. -/
def scaleOf (bits : Nat) : Nat := (scaleSwitch bits).getD 0

/-- Line 285 of `TimerOne::read`:
`tmp = ( (tcnt1>tmp) ? (tmp) : (long)(ICR1-tcnt1)+(long)ICR1 );`
`tmp` is the first counter sample, `tcnt1` the second; `ICR1 - tcnt1` is
16-bit unsigned subtraction. -/
def readTicks (tmp tcnt1 icr1 : Nat) : Nat :=
  if tcnt1 > tmp then tmp
  else (icr1 + 65536 - tcnt1) % 65536 + icr1

/-- The down-count formula the spec states for `read`:
"elapsed ticks = (firstSample) + (counterTop − secondSample) + counterTop".
Written from the spec's words, for comparison with `readTicks` (which is
written from the source). -/
def readTicksClaim (tmp tcnt1 icr1 : Nat) : Nat :=
  if tcnt1 > tmp then tmp
  else tmp + (icr1 - tcnt1) + icr1

/-- `TimerOne::read` (lines 237-288) as a function of the driver state and
the two TCNT1 samples `tmp` (first) and `tcnt1` (second, after the busy-wait):
`((tmp*1000L)/(F_CPU/1000L))<<scale` in 32-bit unsigned arithmetic. -/
def read (fcpu : Nat) (s : State) (tmp tcnt1 : Nat) : Nat :=
  let scale := scaleOf s.clockSelectBits
  let ticks := readTicks tmp tcnt1 s.icr1
  ((ticks * 1000 % 4294967296 / (fcpu / 1000)) <<< scale) % 4294967296

/-- All-zero driver state, used as a base point for concrete evaluations. -/
def s0 : State :=
  { tccr1a := 0, tccr1b := 0, timsk1 := 0, gtccr := 0, ddrb := 0
  , tcnt1 := 0, icr1 := 0, ocr1a := 0, ocr1b := 0
  , pwmPeriod := 0, clockSelectBits := 0, isrCallback := 0 }

/-- The invariant of the claim C9: clockSelectBits holds one of the five
CS encodings and pwmPeriod is below RESOLUTION. -/
def Inv (s : State) : Prop :=
  (1 ≤ s.clockSelectBits ∧ s.clockSelectBits ≤ 5) ∧ s.pwmPeriod < RESOLUTION

instance (s : State) : Decidable (Inv s) := by
  unfold Inv; infer_instance

/-
Access traces: the order of SREG/interrupt-mask manipulations and 16-bit
register accesses performed by each operation, for the atomicity claim.
-/

/-- One event of an operation's register-access trace.  `sreg.save` is
`oldSREG = SREG`, `sreg.restore` is `SREG = oldSREG`; `accTCNT1`/`accICR1`
are single accesses (read or write) of the 16-bit TCNT1/ICR1 registers;
`accOther` is any other register access (8-bit registers, OCR1A/OCR1B). -/
inductive RegEv where
  | saveSREG
  | cli
  | restoreSREG
  | sei
  | accTCNT1
  | accICR1
  | accOther
deriving DecidableEq, Repr

/-- Whether the trace continues with an immediate SREG restore. -/
def nextIsRestore : List RegEv → Bool
  | RegEv.restoreSREG :: _ => true
  | _ => false

/-- Scans a trace checking the atomic-access discipline: every TCNT1/ICR1
access happens between a `cli` (itself preceded by a save of SREG) and the
SREG restore that immediately follows the access; interrupts are never
unconditionally re-enabled (`sei` is forbidden); every critical section is
closed.  `saved` records whether oldSREG currently holds the entry SREG,
`inCS` whether a `cli` is pending restore. -/
def atomChk (saved inCS : Bool) : List RegEv → Bool
  | [] => !inCS
  | RegEv.saveSREG :: r => atomChk true inCS r
  | RegEv.cli :: r => saved && atomChk saved true r
  | RegEv.restoreSREG :: r => atomChk false false r
  | RegEv.sei :: _ => false
  | RegEv.accTCNT1 :: r => inCS && nextIsRestore r && atomChk saved inCS r
  | RegEv.accICR1 :: r => inCS && nextIsRestore r && atomChk saved inCS r
  | RegEv.accOther :: r => atomChk saved inCS r

/-- A trace satisfies the atomic 16-bit access discipline. -/
def atomicOk (t : List RegEv) : Bool := atomChk false false t

/-- A critical section around one access: save SREG, cli, access, restore. -/
def csAcc (e : RegEv) : List RegEv :=
  [RegEv.saveSREG, RegEv.cli, e, RegEv.restoreSREG]

/-- Trace of `setPeriod` (lines 93-103): protected ICR1 write, then the two
TCCR1B (8-bit) accesses. -/
def setPeriodTrace : List RegEv :=
  csAcc RegEv.accICR1 ++ [RegEv.accOther, RegEv.accOther]

/-- Trace of `setPwmDuty` (lines 113-121): OCR1A/OCR1B write (for a valid
pin) inside the critical section. -/
def setPwmDutyTrace (validPin : Bool) : List RegEv :=
  [RegEv.saveSREG, RegEv.cli]
    ++ (if validPin then [RegEv.accOther] else [])
    ++ [RegEv.restoreSREG]

/-- Trace of `start` (lines 201-227): TIMSK1 and GTCCR accesses, protected
TCNT1 write, resume's TCCR1B access, then `n+1` iterations of the busy-wait,
each a protected TCNT1 read. -/
def startTrace (n : Nat) : List RegEv :=
  [RegEv.accOther, RegEv.accOther] ++ csAcc RegEv.accTCNT1 ++ [RegEv.accOther]
    ++ (List.replicate (n + 1) (csAcc RegEv.accTCNT1)).flatten

/-- Trace of `read` (lines 242-287): protected first TCNT1 sample, `n+1`
busy-wait iterations each with a protected TCNT1 read, and — on the
down-count branch of line 285 — two ICR1 reads outside any critical
section. -/
def readTrace (n : Nat) (down : Bool) : List RegEv :=
  csAcc RegEv.accTCNT1
    ++ (List.replicate (n + 1) (csAcc RegEv.accTCNT1)).flatten
    ++ (if down then [RegEv.accICR1, RegEv.accICR1] else [])

/-
Helper lemmas shared by the claim theorems.
-/

/-- The wrap of 32-bit signed arithmetic is the identity on in-range values. -/
lemma wrap32_eq_self (x : Int) (h1 : -2147483648 ≤ x) (h2 : x < 2147483648) :
    wrap32 x = x := by
  unfold wrap32
  omega

/-- Threshold characterization of the prescaler if-chain: the compounded
shifts compare `cycles` against RESOLUTION, 8·RESOLUTION, …, 1024·RESOLUTION. -/
lemma selectClock_eq_thresholds (c : Int) :
    selectClock c =
      if c < RESOLUTION then (1, c)
      else if c < 8 * RESOLUTION then (2, c / 8)
      else if c < 64 * RESOLUTION then (3, c / 64)
      else if c < 256 * RESOLUTION then (4, c / 256)
      else if c < 1024 * RESOLUTION then (5, c / 1024)
      else (5, RESOLUTION - 1) := by
  unfold selectClock RESOLUTION
  split_ifs <;> first | rfl | omega

/-- Threshold characterization of the selected clockSelectBits alone. -/
lemma selectClock_fst (c : Int) :
    (selectClock c).1 =
      if c < RESOLUTION then 1
      else if c < 8 * RESOLUTION then 2
      else if c < 64 * RESOLUTION then 3
      else if c < 256 * RESOLUTION then 4
      else 5 := by
  rw [selectClock_eq_thresholds]
  split_ifs <;> rfl

/-- Threshold characterization of the stored cycles value alone. -/
lemma selectClock_snd (c : Int) :
    (selectClock c).2 =
      if c < RESOLUTION then c
      else if c < 8 * RESOLUTION then c / 8
      else if c < 64 * RESOLUTION then c / 64
      else if c < 256 * RESOLUTION then c / 256
      else if c < 1024 * RESOLUTION then c / 1024
      else RESOLUTION - 1 := by
  rw [selectClock_eq_thresholds]
  split_ifs <;> rfl

/-- The selected clockSelectBits value is one of the five CS encodings. -/
lemma selectClock_bits_bounds (c : Int) :
    1 ≤ (selectClock c).1 ∧ (selectClock c).1 ≤ 5 := by
  unfold selectClock
  split_ifs <;> simp

/-- The cycles value stored by the selection is always below RESOLUTION. -/
lemma selectClock_snd_lt (c : Int) : (selectClock c).2 < RESOLUTION := by
  rw [selectClock_eq_thresholds]
  unfold RESOLUTION
  split_ifs <;> simp <;> omega

/-- The selection is exactly "smallest divider d with cycles / d < RESOLUTION"
whenever some divider in the set qualifies. -/
lemma selectClock_min (c : Int) (d : Nat) (hd : d ∈ [1, 8, 64, 256, 1024])
    (hlt : c / (d : Int) < RESOLUTION) :
    dividerOf (selectClock c).1 ∈ [1, 8, 64, 256, 1024] ∧
    c / (dividerOf (selectClock c).1 : Int) < RESOLUTION ∧
    (∀ e : Nat, e ∈ [1, 8, 64, 256, 1024] → c / (e : Int) < RESOLUTION →
      dividerOf (selectClock c).1 ≤ e) ∧
    (selectClock c).2 = c / (dividerOf (selectClock c).1 : Int) := by
  simp only [List.mem_cons, List.not_mem_nil, or_false] at hd
  rw [selectClock_fst, selectClock_snd]
  unfold RESOLUTION at *
  split_ifs with h1 h2 h3 h4 h5
  · refine ⟨by norm_num [dividerOf], ?_, ?_, ?_⟩
    · norm_num [dividerOf]; omega
    · intro e he hlte
      simp only [List.mem_cons, List.not_mem_nil, or_false] at he
      norm_num [dividerOf]
      omega
    · norm_num [dividerOf]
  · refine ⟨by norm_num [dividerOf], ?_, ?_, ?_⟩
    · norm_num [dividerOf]; omega
    · intro e he hlte
      simp only [List.mem_cons, List.not_mem_nil, or_false] at he
      norm_num [dividerOf]
      rcases he with h | h | h | h | h <;> subst h <;> push_cast at hlte <;> omega
    · norm_num [dividerOf]
  · refine ⟨by norm_num [dividerOf], ?_, ?_, ?_⟩
    · norm_num [dividerOf]; omega
    · intro e he hlte
      simp only [List.mem_cons, List.not_mem_nil, or_false] at he
      norm_num [dividerOf]
      rcases he with h | h | h | h | h <;> subst h <;> push_cast at hlte <;> omega
    · norm_num [dividerOf]
  · refine ⟨by norm_num [dividerOf], ?_, ?_, ?_⟩
    · norm_num [dividerOf]; omega
    · intro e he hlte
      simp only [List.mem_cons, List.not_mem_nil, or_false] at he
      norm_num [dividerOf]
      rcases he with h | h | h | h | h <;> subst h <;> push_cast at hlte <;> omega
    · norm_num [dividerOf]
  · refine ⟨by norm_num [dividerOf], ?_, ?_, ?_⟩
    · norm_num [dividerOf]; omega
    · intro e he hlte
      simp only [List.mem_cons, List.not_mem_nil, or_false] at he
      norm_num [dividerOf]
      rcases he with h | h | h | h | h <;> subst h <;> push_cast at hlte <;> omega
    · norm_num [dividerOf]
  · exact absurd hlt (by rcases hd with h | h | h | h | h <;> subst h <;>
      push_cast <;> omega)

/-- Claim C1: for every requested period, setPeriod computes
cycles = (clockFrequency / 2000000) * periodMicroseconds (in the source's
32-bit long arithmetic) and selects the smallest prescale divider d from the
ordered sequence {1, 8, 64, 256, 1024} with cycles / d < RESOLUTION, setting
pwmPeriod to cycles / d and ICR1 to its 16-bit store; stated under the
claim's presupposition that some divider of the sequence satisfies the bound
(the complementary saturating case is claim C5). -/
theorem C1_setPeriod_smallest_divider (fcpu : Nat) (microseconds : Int)
    (s : State) (d : Nat) (hd : d ∈ [1, 8, 64, 256, 1024])
    (hlt : machineCycles fcpu microseconds / (d : Int) < RESOLUTION) :
    dividerOf (setPeriodSel fcpu microseconds).1 ∈ [1, 8, 64, 256, 1024] ∧
    machineCycles fcpu microseconds
        / (dividerOf (setPeriodSel fcpu microseconds).1 : Int) < RESOLUTION ∧
    (∀ e : Nat, e ∈ [1, 8, 64, 256, 1024] →
      machineCycles fcpu microseconds / (e : Int) < RESOLUTION →
      dividerOf (setPeriodSel fcpu microseconds).1 ≤ e) ∧
    (setPeriod fcpu microseconds s).pwmPeriod =
      machineCycles fcpu microseconds
        / (dividerOf (setPeriodSel fcpu microseconds).1 : Int) ∧
    (setPeriod fcpu microseconds s).icr1 =
      u16 (machineCycles fcpu microseconds
        / (dividerOf (setPeriodSel fcpu microseconds).1 : Int)) := by
  obtain ⟨hmem, hlt2, hmin, heq⟩ :=
    selectClock_min (machineCycles fcpu microseconds) d hd hlt
  have hsel : setPeriodSel fcpu microseconds
      = selectClock (machineCycles fcpu microseconds) := rfl
  have hp : (setPeriod fcpu microseconds s).pwmPeriod =
      (selectClock (machineCycles fcpu microseconds)).2 := rfl
  have hi : (setPeriod fcpu microseconds s).icr1 =
      u16 ((selectClock (machineCycles fcpu microseconds)).2) := rfl
  rw [hsel]
  exact ⟨hmem, hlt2, hmin, hp.trans heq, by rw [hi, heq]⟩

/-- Witness for C1 at fcpu = 16 MHz, period = 100000 µs, divider 64. -/
theorem C1_setPeriod_smallest_divider_witness :
    ((64 : Nat) ∈ [1, 8, 64, 256, 1024] ∧
      machineCycles 16000000 100000 / ((64 : Nat) : Int) < RESOLUTION) ∧
    (dividerOf (setPeriodSel 16000000 100000).1 ∈ [1, 8, 64, 256, 1024] ∧
      machineCycles 16000000 100000
          / (dividerOf (setPeriodSel 16000000 100000).1 : Int) < RESOLUTION ∧
      (∀ e : Nat, e ∈ [1, 8, 64, 256, 1024] →
        machineCycles 16000000 100000 / (e : Int) < RESOLUTION →
        dividerOf (setPeriodSel 16000000 100000).1 ≤ e) ∧
      (setPeriod 16000000 100000 s0).pwmPeriod =
        machineCycles 16000000 100000
          / (dividerOf (setPeriodSel 16000000 100000).1 : Int) ∧
      (setPeriod 16000000 100000 s0).icr1 =
        u16 (machineCycles 16000000 100000
          / (dividerOf (setPeriodSel 16000000 100000).1 : Int))) :=
  ⟨⟨by decide, by decide⟩,
    C1_setPeriod_smallest_divider 16000000 100000 s0 64 (by decide) (by decide)⟩

/-- Counterexample for C5 as stated: at fcpu = 16 MHz and period 268435456 µs
the exact cycle count is 2^31, whose division by the slowest divider 1024 is
still at least RESOLUTION, yet the 32-bit computation wraps to -2^31, so
setPeriod selects divider 1 (clockSelectBits = 1) and stores -2^31, not
RESOLUTION - 1. -/
theorem C5_wrap_defeats_saturation :
    RESOLUTION ≤ exactCycles 16000000 268435456 / 1024 ∧
    (setPeriodSel 16000000 268435456).1 = 1 ∧
    dividerOf (setPeriodSel 16000000 268435456).1 = 1 ∧
    (setPeriodSel 16000000 268435456).2 = -2147483648 ∧
    ¬ (setPeriodSel 16000000 268435456).2 = RESOLUTION - 1 := by decide

/-- Claim C5 (amended): for every requested period whose 32-bit cycle count
(the value the source computes; it equals the exact cycle count whenever the
product does not overflow a signed 32-bit long) still reaches RESOLUTION after
division by the slowest divider, setPeriod saturates: divider 1024
(clockSelectBits = 5) and counter-top RESOLUTION - 1. -/
theorem C5_saturates_at_slowest_divider (fcpu : Nat) (microseconds : Int)
    (h : RESOLUTION ≤ machineCycles fcpu microseconds / 1024) :
    (setPeriodSel fcpu microseconds).1 = 5 ∧
    dividerOf (setPeriodSel fcpu microseconds).1 = 1024 ∧
    (setPeriodSel fcpu microseconds).2 = RESOLUTION - 1 := by
  unfold setPeriodSel
  rw [selectClock_eq_thresholds]
  unfold RESOLUTION at *
  split_ifs <;> first | (exfalso; omega) | decide

/-- Witness for C5 at fcpu = 16 MHz, period = 9000000 µs (cycles 72000000). -/
theorem C5_saturates_at_slowest_divider_witness :
    RESOLUTION ≤ machineCycles 16000000 9000000 / 1024 ∧
    ((setPeriodSel 16000000 9000000).1 = 5 ∧
      dividerOf (setPeriodSel 16000000 9000000).1 = 1024 ∧
      (setPeriodSel 16000000 9000000).2 = RESOLUTION - 1) :=
  ⟨by decide, C5_saturates_at_slowest_divider 16000000 9000000 (by decide)⟩

/-- Claim C6: divider selection is monotone in the requested period, for
periods in the representable range (cycle count below 1024 · RESOLUTION, so
that no 32-bit overflow occurs either). -/
theorem C6_divider_monotone (fcpu : Nat) (p1 p2 : Int)
    (h0 : 0 ≤ p1) (h12 : p1 ≤ p2)
    (hrep : exactCycles fcpu p2 < 1024 * RESOLUTION) :
    dividerOf (setPeriodSel fcpu p1).1 ≤ dividerOf (setPeriodSel fcpu p2).1 := by
  have hk : (0 : Int) ≤ ((fcpu / 2000000 : Nat) : Int) := Int.natCast_nonneg _
  unfold exactCycles at hrep
  unfold RESOLUTION at hrep
  have hle : ((fcpu / 2000000 : Nat) : Int) * p1 ≤ ((fcpu / 2000000 : Nat) : Int) * p2 :=
    mul_le_mul_of_nonneg_left h12 hk
  have hnn : 0 ≤ ((fcpu / 2000000 : Nat) : Int) * p1 := mul_nonneg hk h0
  have hnn2 : 0 ≤ ((fcpu / 2000000 : Nat) : Int) * p2 := le_trans hnn hle
  have h1lt : ((fcpu / 2000000 : Nat) : Int) * p1 < 1024 * 65535 :=
    lt_of_le_of_lt hle hrep
  have e1 : machineCycles fcpu p1 = ((fcpu / 2000000 : Nat) : Int) * p1 := by
    unfold machineCycles
    exact wrap32_eq_self _ (le_trans (by norm_num) hnn)
      (lt_trans h1lt (by norm_num))
  have e2 : machineCycles fcpu p2 = ((fcpu / 2000000 : Nat) : Int) * p2 := by
    unfold machineCycles
    exact wrap32_eq_self _ (le_trans (by norm_num) hnn2)
      (lt_trans hrep (by norm_num))
  unfold setPeriodSel
  rw [e1, e2, selectClock_fst, selectClock_fst]
  unfold RESOLUTION
  generalize hga : ((fcpu / 2000000 : Nat) : Int) * p1 = a at *
  generalize hgb : ((fcpu / 2000000 : Nat) : Int) * p2 = b at *
  split_ifs <;> first | decide | (exfalso; omega)

/-- Witness for C6 at fcpu = 16 MHz, periods 1000 µs and 100000 µs. -/
theorem C6_divider_monotone_witness :
    (0 : Int) ≤ 1000 ∧ (1000 : Int) ≤ 100000 ∧
    exactCycles 16000000 100000 < 1024 * RESOLUTION ∧
    dividerOf (setPeriodSel 16000000 1000).1 ≤
      dividerOf (setPeriodSel 16000000 100000).1 :=
  ⟨by decide, by decide, by decide,
    C6_divider_monotone 16000000 1000 100000 (by decide) (by decide) (by decide)⟩

/-- Counterexample for C4 as stated: after initialize(1000) at fcpu = 16 MHz
the clock-select bits of TCCR1B are 1, not 0 — the driver is running, not
Stopped (setPeriod's last line ORs clockSelectBits into TCCR1B, "starts the
clock" per the source comment). -/
theorem C4_initialize_not_stopped :
    (initDriver 16000000 1000 s0).tccr1b &&& 7 = 1 ∧
    ¬ (initDriver 16000000 1000 s0).tccr1b &&& 7 = 0 := by decide

/-- Claim C4 (amended): initialize(period) resets TCCR1A to 0 and TCCR1B to
the symmetric-counting mode bit (WGM13 = 16) with the clock stopped, then
runs the prescale selection and programs the counter-top; on return TCCR1B
holds the mode bit OR the selected clock-select bits (one of 1..5), so the
driver is running, not Stopped. -/
theorem C4_initialize_runs_clock (fcpu : Nat) (microseconds : Int) (s : State) :
    (initDriver fcpu microseconds s).tccr1a = 0 ∧
    (initDriver fcpu microseconds s).tccr1b =
      16 ||| (setPeriodSel fcpu microseconds).1 ∧
    (initDriver fcpu microseconds s).clockSelectBits =
      (setPeriodSel fcpu microseconds).1 ∧
    (initDriver fcpu microseconds s).pwmPeriod =
      (setPeriodSel fcpu microseconds).2 ∧
    (initDriver fcpu microseconds s).icr1 =
      u16 (setPeriodSel fcpu microseconds).2 ∧
    (initDriver fcpu microseconds s).pwmPeriod < RESOLUTION ∧
    1 ≤ (initDriver fcpu microseconds s).clockSelectBits ∧
    (initDriver fcpu microseconds s).clockSelectBits ≤ 5 := by
  have h16 : (16 : Nat) &&& 248 = 16 := by decide
  refine ⟨rfl, ?_, rfl, rfl, rfl, selectClock_snd_lt _,
    (selectClock_bits_bounds _).1, (selectClock_bits_bounds _).2⟩
  show (16 &&& 248) ||| (setPeriodSel fcpu microseconds).1
      = 16 ||| (setPeriodSel fcpu microseconds).1
  rw [h16]

/-- Counterexample for C3 as stated: with counter top 100, first sample 90,
second sample 5 (down-count phase), the code computes
(top − second) + top = 195 elapsed ticks, while the claim's formula
first + (top − second) + top gives 285; the returned microsecond values
(at 16 MHz, divider 1) differ as well (12 vs 17). -/
theorem C3_down_count_formula_differs :
    readTicks 90 5 100 = 195 ∧
    readTicksClaim 90 5 100 = 285 ∧
    readTicks 90 5 100 ≠ readTicksClaim 90 5 100 ∧
    read 16000000 { s0 with icr1 := 100, clockSelectBits := 1 } 90 5 = 12 ∧
    ((readTicksClaim 90 5 100 * 1000 % 4294967296 / (16000000 / 1000)) <<< 0)
        % 4294967296 = 17 := by decide

/-- Claim C3 (amended): read() samples the counter twice (busy-waiting until
the raw value changes); if the second sample is not larger than the first
(down-count phase) the elapsed tick count is (counterTop − secondSample) +
counterTop (the first sample is discarded, not added); the result is
ticks * 1000 / (clockFrequency / 1000), left-shifted by the log2 of the
active prescale divider (in 32-bit unsigned arithmetic). -/
theorem C3_read_ticks_and_conversion (fcpu : Nat) (s : State) (tmp tcnt1 : Nat)
    (hb1 : 1 ≤ s.clockSelectBits) (hb5 : s.clockSelectBits ≤ 5)
    (ht : tcnt1 ≤ s.icr1) (hi : s.icr1 < 65536) :
    read fcpu s tmp tcnt1 =
      (((if tmp < tcnt1 then tmp else (s.icr1 - tcnt1) + s.icr1) * 1000
          % 4294967296 / (fcpu / 1000))
        <<< Nat.log2 (dividerOf s.clockSelectBits)) % 4294967296 := by
  have hticks : readTicks tmp tcnt1 s.icr1 =
      if tmp < tcnt1 then tmp else (s.icr1 - tcnt1) + s.icr1 := by
    unfold readTicks
    by_cases h : tmp < tcnt1
    · rw [if_pos h, if_pos h]
    · rw [if_neg h, if_neg h]
      omega
  have hscale : scaleOf s.clockSelectBits
      = Nat.log2 (dividerOf s.clockSelectBits) := by
    set b := s.clockSelectBits with hb
    interval_cases b <;> simp [scaleOf, scaleSwitch, dividerOf, Nat.log2]
  unfold read
  rw [hticks, hscale]

/-- Witness for C3 at fcpu = 16 MHz, top 100, divider 1, samples 90 then 5. -/
theorem C3_read_ticks_and_conversion_witness :
    (1 ≤ ({ s0 with icr1 := 100, clockSelectBits := 1 } : State).clockSelectBits ∧
      ({ s0 with icr1 := 100, clockSelectBits := 1 } : State).clockSelectBits ≤ 5 ∧
      5 ≤ ({ s0 with icr1 := 100, clockSelectBits := 1 } : State).icr1 ∧
      ({ s0 with icr1 := 100, clockSelectBits := 1 } : State).icr1 < 65536) ∧
    read 16000000 { s0 with icr1 := 100, clockSelectBits := 1 } 90 5 =
      (((if (90 : Nat) < 5 then (90 : Nat)
          else (({ s0 with icr1 := 100, clockSelectBits := 1 } : State).icr1 - 5)
            + ({ s0 with icr1 := 100, clockSelectBits := 1 } : State).icr1) * 1000
          % 4294967296 / (16000000 / 1000))
        <<< Nat.log2 (dividerOf
          ({ s0 with icr1 := 100, clockSelectBits := 1 } : State).clockSelectBits))
        % 4294967296 :=
  ⟨⟨by decide, by decide, by decide, by decide⟩,
    C3_read_ticks_and_conversion 16000000
      { s0 with icr1 := 100, clockSelectBits := 1 } 90 5
      (by decide) (by decide) (by decide) (by decide)⟩

/-- Counterexample for C7 as stated: pwm with the invalid pin 99 is not a
no-op — with a positive period argument it reprograms the period, and even
with period 0 it still calls resume(), which ORs the clock-select bits back
into TCCR1B (restarting a stopped timer).  disablePwm and setPwmDuty, by
contrast, really do leave the state unchanged. -/
theorem C7_pwm_invalid_pin_not_noop :
    pwm 16000000 99 512 1000 s0 ≠ s0 ∧
    pwm 16000000 99 512 0 { s0 with clockSelectBits := 1 } ≠
      { s0 with clockSelectBits := 1 } ∧
    disablePwm 99 s0 = s0 ∧
    setPwmDuty 99 512 s0 = s0 := by decide

/-- Claim C7 (amended): for every channel identifier that is not one of the
two valid PWM channels, disablePwm and setPwmDuty are no-ops (state
unchanged, no error reported), while pwm performs no channel configuration
(no DDRB, compare-output or duty-register write) but still applies the
optional period change and calls resume(), so it equals the optional
setPeriod followed by resume. -/
theorem C7_invalid_pin_behaviour (fcpu : Nat) (pin duty microseconds : Int)
    (s : State) (h1 : pin ≠ 1) (h9 : pin ≠ 9) (h2 : pin ≠ 2) (h10 : pin ≠ 10) :
    disablePwm pin s = s ∧
    setPwmDuty pin duty s = s ∧
    pwm fcpu pin duty microseconds s =
      resume (if 0 < microseconds then setPeriod fcpu microseconds s else s) := by
  unfold pwm disablePwm setPwmDuty
  simp [h1, h9, h2, h10]

/-- Witness for C7 at pin 99. -/
theorem C7_invalid_pin_behaviour_witness :
    ((99 : Int) ≠ 1 ∧ (99 : Int) ≠ 9 ∧ (99 : Int) ≠ 2 ∧ (99 : Int) ≠ 10) ∧
    (disablePwm 99 s0 = s0 ∧
      setPwmDuty 99 512 s0 = s0 ∧
      pwm 16000000 99 512 1000 s0 =
        resume (if (0 : Int) < 1000 then setPeriod 16000000 1000 s0 else s0)) :=
  ⟨⟨by decide, by decide, by decide, by decide⟩,
    C7_invalid_pin_behaviour 16000000 99 512 1000 s0
      (by decide) (by decide) (by decide) (by decide)⟩

/-- Claim C8: for every valid channel and every duty fraction (0..1023),
setPwmDuty writes only that channel's output-compare register, computed as
(pwmPeriod * duty) >> 10, and leaves everything else — clock-select bits,
counter, the other channel — unchanged.  Stated under the driver invariant
0 ≤ pwmPeriod < RESOLUTION (established by setPeriod, claim C9). -/
theorem C8_setPwmDuty_writes_only_duty_register (s : State) (pin duty : Int)
    (hd0 : 0 ≤ duty) (hd1 : duty ≤ 1023)
    (hp0 : 0 ≤ s.pwmPeriod) (hp1 : s.pwmPeriod < RESOLUTION) :
    (pin = 1 ∨ pin = 9 →
      setPwmDuty pin duty s =
        { s with ocr1a := ((s.pwmPeriod * duty) / 1024).toNat }) ∧
    (pin = 2 ∨ pin = 10 →
      setPwmDuty pin duty s =
        { s with ocr1b := ((s.pwmPeriod * duty) / 1024).toNat }) := by
  obtain ⟨p, hp⟩ : ∃ p : Nat, s.pwmPeriod = (p : Int) :=
    ⟨s.pwmPeriod.toNat, (Int.toNat_of_nonneg hp0).symm⟩
  obtain ⟨dn, hdn⟩ : ∃ q : Nat, duty = (q : Int) :=
    ⟨duty.toNat, (Int.toNat_of_nonneg hd0).symm⟩
  have hpb : p < 65535 := by
    rw [hp] at hp1; unfold RESOLUTION at hp1; exact_mod_cast hp1
  have hdb : dn ≤ 1023 := by rw [hdn] at hd1; exact_mod_cast hd1
  have hub : p * dn ≤ 65534 * 1023 := Nat.mul_le_mul (by omega) hdb
  have h1 : u32 s.pwmPeriod = p := by rw [hp]; unfold u32; omega
  have h2 : u32 duty = dn := by rw [hdn]; unfold u32; omega
  have hval : (((u32 s.pwmPeriod * u32 duty) % 4294967296) >>> 10) % 65536
      = ((s.pwmPeriod * duty) / 1024).toNat := by
    rw [h1, h2, hp, hdn, Nat.shiftRight_eq_div_pow, ← Nat.cast_mul]
    generalize p * dn = m at hub ⊢
    norm_num
    omega
  have hbody : setPwmDuty pin duty s =
      if pin = 1 ∨ pin = 9 then
        { s with ocr1a := (((u32 s.pwmPeriod * u32 duty) % 4294967296) >>> 10) % 65536 }
      else if pin = 2 ∨ pin = 10 then
        { s with ocr1b := (((u32 s.pwmPeriod * u32 duty) % 4294967296) >>> 10) % 65536 }
      else s := rfl
  rw [hbody, hval]
  constructor
  · intro hpin
    rw [if_pos hpin]
  · intro hpin
    have hnot : ¬ (pin = 1 ∨ pin = 9) := by
      rcases hpin with h | h <;> subst h <;> decide
    rw [if_neg hnot, if_pos hpin]

/-- Witness for C8 at pwmPeriod 1000, pin 1, duty 512 (OCR1A gets 500). -/
theorem C8_setPwmDuty_writes_only_duty_register_witness :
    ((0 : Int) ≤ 512 ∧ (512 : Int) ≤ 1023 ∧
      (0 : Int) ≤ ({ s0 with pwmPeriod := 1000 } : State).pwmPeriod ∧
      ({ s0 with pwmPeriod := 1000 } : State).pwmPeriod < RESOLUTION) ∧
    setPwmDuty 1 512 { s0 with pwmPeriod := 1000 } =
      { ({ s0 with pwmPeriod := 1000 } : State) with
          ocr1a := ((({ s0 with pwmPeriod := 1000 } : State).pwmPeriod * 512)
            / 1024).toNat } :=
  ⟨⟨by decide, by decide, by decide, by decide⟩,
    (C8_setPwmDuty_writes_only_duty_register { s0 with pwmPeriod := 1000 } 1 512
      (by decide) (by decide) (by decide) (by decide)).1 (Or.inl rfl)⟩

/-- setPwmDuty never touches clockSelectBits or pwmPeriod. -/
lemma setPwmDuty_preserves_clock (pin duty : Int) (s : State) :
    (setPwmDuty pin duty s).clockSelectBits = s.clockSelectBits ∧
    (setPwmDuty pin duty s).pwmPeriod = s.pwmPeriod := by
  unfold setPwmDuty
  split_ifs <;> exact ⟨rfl, rfl⟩

/-- pwm changes clockSelectBits and pwmPeriod exactly as its optional
internal setPeriod call does. -/
lemma pwm_clock_fields (fcpu : Nat) (pin duty microseconds : Int) (s : State) :
    (pwm fcpu pin duty microseconds s).clockSelectBits
      = (if 0 < microseconds then setPeriod fcpu microseconds s else s).clockSelectBits ∧
    (pwm fcpu pin duty microseconds s).pwmPeriod
      = (if 0 < microseconds then setPeriod fcpu microseconds s else s).pwmPeriod := by
  unfold pwm resume setPwmDuty
  split_ifs <;> exact ⟨rfl, rfl⟩

/-- attachInterrupt changes clockSelectBits and pwmPeriod exactly as its
optional internal setPeriod call does. -/
lemma attachInterrupt_clock_fields (fcpu : Nat) (cb : Nat) (microseconds : Int)
    (s : State) :
    (attachInterrupt fcpu cb microseconds s).clockSelectBits
      = (if 0 < microseconds then setPeriod fcpu microseconds s else s).clockSelectBits ∧
    (attachInterrupt fcpu cb microseconds s).pwmPeriod
      = (if 0 < microseconds then setPeriod fcpu microseconds s else s).pwmPeriod := by
  unfold attachInterrupt resume
  split_ifs <;> exact ⟨rfl, rfl⟩

/-- Claim C9: setPeriod (and initialize) establish the invariant
clockSelectBits ∈ {1,2,3,4,5} and pwmPeriod < RESOLUTION; every other
operation leaves clockSelectBits unchanged except through its internal
setPeriod call (pwm/attachInterrupt with a positive period), so the
invariant is preserved; and under the invariant the scale switch of read()
matches one of its five cases. -/
theorem C9_clock_select_invariant (fcpu : Nat) (microseconds : Int) (s : State)
    (pin duty : Int) (cb : Nat) :
    Inv (setPeriod fcpu microseconds s) ∧
    Inv (initDriver fcpu microseconds s) ∧
    (Inv s → Inv (pwm fcpu pin duty microseconds s)) ∧
    (Inv s → Inv (attachInterrupt fcpu cb microseconds s)) ∧
    (disablePwm pin s).clockSelectBits = s.clockSelectBits ∧
    (setPwmDuty pin duty s).clockSelectBits = s.clockSelectBits ∧
    (resume s).clockSelectBits = s.clockSelectBits ∧
    (stop s).clockSelectBits = s.clockSelectBits ∧
    (start s).clockSelectBits = s.clockSelectBits ∧
    (restart s).clockSelectBits = s.clockSelectBits ∧
    (detachInterrupt s).clockSelectBits = s.clockSelectBits ∧
    (pwm fcpu pin duty microseconds s).clockSelectBits
      = (if 0 < microseconds then setPeriod fcpu microseconds s else s).clockSelectBits ∧
    (attachInterrupt fcpu cb microseconds s).clockSelectBits
      = (if 0 < microseconds then setPeriod fcpu microseconds s else s).clockSelectBits ∧
    (Inv s → (scaleSwitch s.clockSelectBits).isSome = true) := by
  have hinv : Inv (setPeriod fcpu microseconds s) :=
    ⟨selectClock_bits_bounds _, selectClock_snd_lt _⟩
  have hinit : Inv (initDriver fcpu microseconds s) :=
    ⟨selectClock_bits_bounds _, selectClock_snd_lt _⟩
  have hdis : (disablePwm pin s).clockSelectBits = s.clockSelectBits := by
    unfold disablePwm; split_ifs <;> rfl
  refine ⟨hinv, hinit, ?_, ?_, hdis, (setPwmDuty_preserves_clock pin duty s).1,
    rfl, rfl, rfl, rfl, rfl,
    (pwm_clock_fields fcpu pin duty microseconds s).1,
    (attachInterrupt_clock_fields fcpu cb microseconds s).1, ?_⟩
  · intro h
    obtain ⟨hc, hp⟩ := pwm_clock_fields fcpu pin duty microseconds s
    unfold Inv
    rw [hc, hp]
    by_cases hus : 0 < microseconds
    · rw [if_pos hus]; exact hinv
    · rw [if_neg hus]; exact h
  · intro h
    obtain ⟨hc, hp⟩ := attachInterrupt_clock_fields fcpu cb microseconds s
    unfold Inv
    rw [hc, hp]
    by_cases hus : 0 < microseconds
    · rw [if_pos hus]; exact hinv
    · rw [if_neg hus]; exact h
  · intro h
    obtain ⟨⟨hb1, hb5⟩, _⟩ := h
    set b := s.clockSelectBits with hb
    interval_cases b <;> rfl

/-- Witness for C9: the invariant-preservation implications discharged at a
state satisfying the invariant. -/
theorem C9_clock_select_invariant_witness :
    Inv (setPeriod 16000000 1000 { s0 with clockSelectBits := 1 }) ∧
    Inv (pwm 16000000 1 512 0 { s0 with clockSelectBits := 1 }) ∧
    Inv (attachInterrupt 16000000 7 0 { s0 with clockSelectBits := 1 }) ∧
    (scaleSwitch ({ s0 with clockSelectBits := 1 } : State).clockSelectBits).isSome
      = true :=
  ⟨(C9_clock_select_invariant 16000000 1000 { s0 with clockSelectBits := 1 }
      1 512 7).1,
    (C9_clock_select_invariant 16000000 0 { s0 with clockSelectBits := 1 }
      1 512 7).2.2.1 (by decide),
    (C9_clock_select_invariant 16000000 0 { s0 with clockSelectBits := 1 }
      1 512 7).2.2.2.1 (by decide),
    (C9_clock_select_invariant 16000000 0 { s0 with clockSelectBits := 1 }
      1 512 7).2.2.2.2.2.2.2.2.2.2.2.2.2 (by decide)⟩

/-- Claim C10: attachInterrupt assigns TIMSK1 = _BV(TOIE1) = 1 (plain
assignment, not an OR), so after the call every interrupt-enable bit of
TIMSK1 other than bit 0 is cleared, whatever was set before. -/
theorem C10_attachInterrupt_overwrites_timsk1 (fcpu : Nat) (cb : Nat)
    (microseconds : Int) (s : State) (i : Nat) (hi : i ≠ 0) :
    (attachInterrupt fcpu cb microseconds s).timsk1 = 1 ∧
    (attachInterrupt fcpu cb microseconds s).timsk1.testBit i = false := by
  have h1 : (attachInterrupt fcpu cb microseconds s).timsk1 = 1 := by
    unfold attachInterrupt resume
    split_ifs <;> rfl
  refine ⟨h1, ?_⟩
  rw [h1]
  obtain ⟨n, rfl⟩ : ∃ n, i = n + 1 := ⟨i - 1, by omega⟩
  have hdiv : (1 : Nat) / 2 = 0 := by norm_num
  rw [Nat.testBit_succ, hdiv]
  exact Nat.zero_testBit n

/-- Witness for C10: a state with all TIMSK1 bits set loses bit 3 (and every
bit but 0) across attachInterrupt. -/
theorem C10_attachInterrupt_overwrites_timsk1_witness :
    (3 : Nat) ≠ 0 ∧
    ((attachInterrupt 16000000 7 1000 { s0 with timsk1 := 255 }).timsk1 = 1 ∧
      (attachInterrupt 16000000 7 1000
        { s0 with timsk1 := 255 }).timsk1.testBit 3 = false) :=
  ⟨by decide,
    C10_attachInterrupt_overwrites_timsk1 16000000 7 1000
      { s0 with timsk1 := 255 } 3 (by decide)⟩

/-- Claim C2, refuted on the code: on the down-count branch of read()
(line 285) the 16-bit ICR1 register is read twice with interrupts unmasked —
outside any save-SREG/cli/restore-SREG critical section — violating the
atomic-access discipline that every other 16-bit access of the driver
follows (the traces of setPeriod, start, setPwmDuty, and the up-count branch
of read() all pass the checker). -/
theorem C2_read_icr1_unprotected :
    atomicOk (readTrace 0 true) = false ∧
    atomicOk (readTrace 3 true) = false ∧
    atomicOk (readTrace 0 false) = true ∧
    atomicOk (readTrace 3 false) = true ∧
    atomicOk setPeriodTrace = true ∧
    atomicOk (startTrace 0) = true ∧
    atomicOk (startTrace 3) = true ∧
    atomicOk (setPwmDutyTrace true) = true ∧
    atomicOk (setPwmDutyTrace false) = true := by decide

end TimerOne
